import Mathlib

/-!
Tiny web server: request dispatch and error reporting.

A shallow embedding of `tiny/tiny.c` (functions `doit` and `clienterror`) and
the properties of its request-handling pipeline.

Conventions of the embedding.

* A C string (the bytes before the terminating NUL) is a `List Char`; each
  `Char` stands for one byte, so `List.length` is `strlen`.  A byte above 127
  is written with a `\x` escape.
* `MAXLINE` and `MAXBUF` come from `csapp.h`, which is not part of the
  sources at hand; they are parameters of the definitions that depend on
  them.  CS:APP ships both as 8192, and concrete evaluations use that value.
* `read_requesthdrs`, `parse_uri`, `serve_static` and `serve_dynamic` are
  declared in `tiny.c` but defined elsewhere, and `stat` is the system call.
  `doit` is embedded as the sequence of calls it makes to them (and to
  `clienterror`); the results of `parse_uri` and `stat` are supplied by
  parameters of the same names.
* The request line is given as the bytes `Rio_readlineb` stored in `buf`; the
  string functions see them up to the first NUL byte.
* `doit` returns `none` where the C code would read a buffer that `sscanf`
  left unassigned (the behaviour is then not defined by the source).
* The `printf` calls of `doit` log to standard output, not to the connection,
  and are left out.
-/

namespace Tiny

/-- A C string: the bytes that precede the terminating NUL. -/
abbrev CStr := List Char

/-! ## C library functions used by the source -/

/-- The function `isspace` in the C locale: space, `\t`, `\n`, `\v`, `\f`,
`\r`. -/
def isspace (c : Char) : Bool :=
  c == ' ' || c == '\t' || c == '\n' || c == '\x0b' || c == '\x0c' || c == '\r'

/-- The function `tolower` in the C locale: only `A`..`Z` are changed. -/
def tolower (c : Char) : Char :=
  if 65 ≤ c.toNat ∧ c.toNat ≤ 90 then Char.ofNat (c.toNat + 32) else c

/-- The function `strcasecmp`: the difference of the first pair of bytes that
differ after `tolower`, the end of a string counting as byte 0; `0` when there
is none. -/
def strcasecmp : CStr → CStr → Int
  | [], [] => 0
  | [], b :: _ => 0 - ((tolower b).toNat : Int)
  | a :: _, [] => ((tolower a).toNat : Int)
  | a :: as, b :: bs =>
    if tolower a = tolower b then strcasecmp as bs
    else ((tolower a).toNat : Int) - ((tolower b).toNat : Int)

/-- The function `strlen`. -/
def strlen (s : CStr) : Nat := s.length

/-- The C string held by a buffer whose bytes are `bytes` followed by a NUL:
the bytes before the first NUL. -/
def cstring (bytes : List Char) : CStr := bytes.takeWhile (fun c => c != '\x00')

/-- One `%s` conversion of `sscanf`: skip leading white space, then take the
longest run of non-white-space bytes.  `none` is an input failure (the input
ended before any byte could be stored); otherwise the stored string and the
unread rest of the input. -/
def scan_s (input : CStr) : Option (CStr × CStr) :=
  match input.dropWhile isspace with
  | [] => none
  | c :: cs =>
    some ((c :: cs).takeWhile (fun x => !isspace x), (c :: cs).dropWhile (fun x => !isspace x))

/-- The call `sscanf(buf, "%s %s %s", method, uri, version)`: the contents of
the three destination buffers afterwards, `none` for a buffer no conversion
assigned.
(The blanks of the format skip white space, which `%s` skips anyway; the
conversions stop at the first input failure.) -/
def sscanf3 (buf : CStr) : Option CStr × Option CStr × Option CStr :=
  match scan_s buf with
  | none => (none, none, none)
  | some (method, rest1) =>
    match scan_s rest1 with
    | none => (some method, none, none)
    | some (uri, rest2) =>
      match scan_s rest2 with
      | none => (some method, some uri, none)
      | some (version, _) => (some method, some uri, some version)

/-- Conversion of an integer to C `int` (32 bits, two's complement): the value
modulo `2^32` that lies in `[-2^31, 2^31)`. -/
def toInt32 (n : Int) : Int := (n + 2 ^ 31) % 2 ^ 32 - 2 ^ 31

/-- Decimal digits of a natural number, as `%d` and `%u` print them. -/
def decimal (n : Nat) : CStr := Nat.toDigits 10 n

/-- Output of a `%d` conversion. -/
def fmt_d (i : Int) : CStr :=
  if i < 0 then '-' :: decimal i.natAbs else decimal i.toNat

/-- An argument of a `printf`-style call. -/
inductive Arg where
  | str (s : CStr)
  | int (i : Int)

/-- The text a `printf`-style call produces from a format and its arguments;
`%s` and `%d` are the only conversions the source uses. -/
def format : CStr → List Arg → CStr
  | '%' :: 's' :: fmt, Arg.str s :: args => s ++ format fmt args
  | '%' :: 'd' :: fmt, Arg.int i :: args => fmt_d i ++ format fmt args
  | c :: fmt, args => c :: format fmt args
  | [], _ => []

/-- The call `snprintf(dst, size, fmt, args...)` for `size ≥ 1`: the string left in
`dst`, the first `size - 1` bytes of the formatted text. -/
def snprintf (size : Nat) (fmt : CStr) (args : List Arg) : CStr :=
  (format fmt args).take (size - 1)

/-- The call `Rio_writen(fd, usrbuf, n)`: the bytes put on the stream, the first `n`
bytes of `usrbuf`. -/
def Rio_writen (usrbuf : CStr) (n : Nat) : CStr := usrbuf.take n

/-! ## `clienterror` -/

/-- The format of the error body (lines 120-124; adjacent string literals are
concatenated by the compiler, so the `bgcolor` value carries no quotes). -/
def bodyFormat : CStr :=
  ("<html><title>Tiny Error</title>" ++
   "<body bgcolor=" ++ "#ffffff" ++ ">\r\n" ++
   "%s: %s\r\n" ++
   "<p>%s: %s\r\n" ++
   "<hr><em>The Tiny Web server</em>\r\n").toList

/-- The string `body` after line 125. -/
def errorBody (MAXBUF : Nat) (cause errnum shortmsg longmsg : CStr) : CStr :=
  snprintf MAXBUF bodyFormat [Arg.str errnum, Arg.str shortmsg, Arg.str longmsg, Arg.str cause]

/-- The call `clienterror(fd, cause, errnum, shortmsg, longmsg)`: the payloads
of its four `Rio_writen` calls on `fd`, in order. -/
def clienterror (MAXLINE MAXBUF : Nat) (cause errnum shortmsg longmsg : CStr) : List CStr :=
  let body := errorBody MAXBUF cause errnum shortmsg longmsg
  let buf1 := snprintf MAXLINE "HTTP/1.0 %s %s\r\n".toList [Arg.str errnum, Arg.str shortmsg]
  let buf2 := snprintf MAXLINE "Content-type: text/html\r\n".toList []
  let buf3 := snprintf MAXLINE "Content-length: %d\r\n\r\n".toList
    [Arg.int (toInt32 (strlen body))]
  [Rio_writen buf1 (strlen buf1),
   Rio_writen buf2 (strlen buf2),
   Rio_writen buf3 (strlen buf3),
   Rio_writen body (strlen body)]

/-! ## `doit` -/

/-- The fields of `struct stat` that `doit` reads. -/
structure Stat where
  st_mode : Nat
  st_size : Int

def S_IFMT : Nat := 0o170000
def S_IFREG : Nat := 0o100000
def S_IRUSR : Nat := 0o400
def S_IXUSR : Nat := 0o100

/-- The macro `S_ISREG` of `<sys/stat.h>` (the four constants above are the
values Linux and POSIX give the macros of the same names). -/
def S_ISREG (m : Nat) : Bool := (m &&& S_IFMT) == S_IFREG

/-- A call `doit` makes, with the arguments it passes (the descriptor and the
`rio` buffer apart). -/
inductive Event where
  | clienterror (cause errnum shortmsg longmsg : CStr)
  | read_requesthdrs
  | parse_uri (uri : CStr)
  | stat (filename : CStr)
  | serve_static (filename : CStr) (filesize : Int)
  | serve_dynamic (filename cgiargs : CStr)
deriving DecidableEq

/-- The call `doit(fd)`, given the bytes `line` that `Rio_readlineb` stored in
`buf` ahead of its terminator: the calls made, in order.  `parse_uri uri` gives the
return value of `parse_uri` and the strings it leaves in `filename` and
`cgiargs`; `stat filename` is `none` when `stat` returns a negative value and
the filled `sbuf` otherwise.  `sbuf.st_size` is converted to the `int`
parameter of `serve_static`. -/
def doit (parse_uri : CStr → Int × CStr × CStr) (stat : CStr → Option Stat)
    (line : List Char) : Option (List Event) :=
  match sscanf3 (cstring line) with
  | (none, _, _) => none
  | (some method, uri, _) =>
    if strcasecmp method "GET".toList ≠ 0 then
      some [Event.clienterror method "501".toList "NOT implemented".toList
        "Tiny does not implement this method".toList]
    else
      match uri with
      | none => none
      | some uri =>
        match parse_uri uri with
        | (is_static, filename, cgiargs) =>
          let calls := [Event.read_requesthdrs, Event.parse_uri uri, Event.stat filename]
          match stat filename with
          | none =>
            some (calls ++ [Event.clienterror filename "404".toList "Not found".toList
              "Tiny couldn't find this file".toList])
          | some sbuf =>
            if is_static ≠ 0 then
              if !(S_ISREG sbuf.st_mode) || (S_IRUSR &&& sbuf.st_mode) == 0 then
                some (calls ++ [Event.clienterror filename "403".toList "Forbidden".toList
                  "Tiny couldn't read the file".toList])
              else
                some (calls ++ [Event.serve_static filename (toInt32 sbuf.st_size)])
            else
              if !(S_ISREG sbuf.st_mode) || (S_IXUSR &&& sbuf.st_mode) == 0 then
                some (calls ++ [Event.clienterror filename "403".toList "Forbidden".toList
                  "Tiny couldn\xe2\x80\x99t run the CGI program".toList])
              else
                some (calls ++ [Event.serve_dynamic filename cgiargs])

/-! ## Notions used to state the properties -/

/-- The white-space-delimited tokens of a string, in order. -/
def tokens : CStr → List CStr
  | [] => []
  | c :: cs =>
    if isspace c then tokens cs
    else
      match cs with
      | [] => [[c]]
      | d :: _ =>
        if isspace d then [c] :: tokens cs
        else
          match tokens cs with
          | [] => [[c]]
          | t :: ts => (c :: t) :: ts

/-- The eight spellings of `GET` that differ only in letter case. -/
def GET_spellings : List CStr :=
  ["GET".toList, "GEt".toList, "GeT".toList, "Get".toList,
   "gET".toList, "gEt".toList, "geT".toList, "get".toList]

/-- The call is an error response with status code `code`. -/
def Event.isError (code : CStr) : Event → Bool
  | Event.clienterror _ errnum _ _ => errnum == code
  | _ => false

/-- Some call of the trace is an error response with status code `code`. -/
def sendsError (code : CStr) (t : List Event) : Bool := t.any (Event.isError code)

/-- The call produces a response: an error response, or the response of
`serve_static` or of `serve_dynamic`. -/
def Event.isResponse : Event → Bool
  | Event.clienterror _ _ _ _ => true
  | Event.serve_static _ _ => true
  | Event.serve_dynamic _ _ => true
  | _ => false

/-- Number of responses a trace produces. -/
def responses (t : List Event) : Nat := (t.filter Event.isResponse).length

/-- The server signature line that closes an error body. -/
def signature : CStr := "<hr><em>The Tiny Web server</em>\r\n".toList

/-- The error page in full, before any truncation: the fixed HTML text with
the status code, the short phrase, the long phrase and the cause in place. -/
def errorText (cause errnum shortmsg longmsg : CStr) : CStr :=
  "<html><title>Tiny Error</title><body bgcolor=#ffffff>\r\n".toList ++ errnum ++ ": ".toList ++
    shortmsg ++ "\r\n<p>".toList ++ longmsg ++ ": ".toList ++ cause ++ "\r\n".toList ++ signature

/-- The bytes of a complete error response with the given status code, short
phrase and body: status line, the two headers, a blank line, the body. -/
def errorResponse (errnum shortmsg body : CStr) : CStr :=
  "HTTP/1.0 ".toList ++ errnum ++ " ".toList ++ shortmsg ++ "\r\n".toList ++
    "Content-type: text/html\r\n".toList ++
    "Content-length: ".toList ++ decimal body.length ++ "\r\n".toList ++
    "\r\n".toList ++ body

/-! ## Concrete inputs -/

/-- A classifier for the examples: every URI is static and names the file
`.` followed by the URI, with no arguments. -/
def staticUnderDot (uri : CStr) : Int × CStr × CStr := (1, '.' :: uri, [])

/-- A classifier for the examples: every URI is dynamic; the file is `.`
followed by the URI up to its first `?`, the arguments are what follows it. -/
def dynamicUnderDot (uri : CStr) : Int × CStr × CStr :=
  (0, '.' :: uri.takeWhile (fun c => c != '?'), (uri.dropWhile (fun c => c != '?')).drop 1)

/-- A file system in which no path exists. -/
def statNothing (_ : CStr) : Option Stat := none

/-- A file system in which every path has the given mode and size. -/
def statAll (mode : Nat) (size : Int) (_ : CStr) : Option Stat := some ⟨mode, size⟩

/-- A cause as long as a request line allows with `MAXLINE = 8192`. -/
def longCause : CStr := List.replicate 8191 'a'

/-- A short phrase of 8192 bytes. -/
def longPhrase : CStr := List.replicate 8192 'a'

/-! ## Tokens and `sscanf` -/

theorem tokens_cons_nonspace (c : Char) (cs : CStr) (hc : isspace c = false) :
    tokens (c :: cs) =
      (c :: cs.takeWhile (fun x => !isspace x)) :: tokens (cs.dropWhile (fun x => !isspace x)) := by
  induction cs generalizing c with
  | nil => simp [tokens, hc]
  | cons d ds ih =>
    by_cases hd : isspace d = true
    · simp [tokens, hc, hd]
    · have hd' : isspace d = false := by simpa using hd
      rw [tokens]
      simp only [hc, hd', Bool.false_eq_true, if_false]
      rw [ih d hd']
      simp [hd']

theorem scan_s_tokens (s : CStr) :
    match scan_s s with
    | none => tokens s = []
    | some (t, rest) => tokens s = t :: tokens rest := by
  induction s with
  | nil => simp [scan_s, tokens]
  | cons c cs ih =>
    by_cases hc : isspace c = true
    · have h1 : scan_s (c :: cs) = scan_s cs := by simp [scan_s, hc]
      have h2 : tokens (c :: cs) = tokens cs := by simp [tokens, hc]
      rw [h1, h2]; exact ih
    · have hc' : isspace c = false := by simpa using hc
      have h1 : scan_s (c :: cs) =
          some (c :: cs.takeWhile (fun x => !isspace x), cs.dropWhile (fun x => !isspace x)) := by
        simp [scan_s, hc']
      rw [h1]
      exact tokens_cons_nonspace c cs hc'

/-- The three conversions of `sscanf` store the first three tokens. -/
theorem sscanf3_tokens (s : CStr) :
    sscanf3 s = ((tokens s)[0]?, (tokens s)[1]?, (tokens s)[2]?) := by
  have h1 := scan_s_tokens s
  cases e1 : scan_s s with
  | none => rw [e1] at h1; simp at h1; simp [sscanf3, e1, h1]
  | some p1 =>
    obtain ⟨t1, r1⟩ := p1
    rw [e1] at h1; simp only at h1
    have h2 := scan_s_tokens r1
    cases e2 : scan_s r1 with
    | none => rw [e2] at h2; simp at h2; simp [sscanf3, e1, e2, h1, h2]
    | some p2 =>
      obtain ⟨t2, r2⟩ := p2
      rw [e2] at h2; simp only at h2
      have h3 := scan_s_tokens r2
      cases e3 : scan_s r2 with
      | none => rw [e3] at h3; simp at h3; simp [sscanf3, e1, e2, e3, h1, h2, h3]
      | some p3 =>
        obtain ⟨t3, r3⟩ := p3
        rw [e3] at h3; simp only at h3
        simp [sscanf3, e1, e2, e3, h1, h2, h3]

theorem scan_s_subset (s t r : CStr) (h : scan_s s = some (t, r)) : ∀ c ∈ t, c ∈ s := by
  unfold scan_s at h
  cases e : s.dropWhile isspace with
  | nil => rw [e] at h; simp at h
  | cons d ds =>
    rw [e] at h
    simp only [Option.some.injEq, Prod.mk.injEq] at h
    intro c hc
    rw [← h.1] at hc
    have h1 : c ∈ d :: ds := List.takeWhile_subset _ hc
    rw [← e] at h1
    exact (List.dropWhile_sublist _).subset h1

theorem head_token_subset (s t : CStr) (ts : List CStr) (h : tokens s = t :: ts) :
    ∀ c ∈ t, c ∈ s := by
  have h1 := scan_s_tokens s
  cases e : scan_s s with
  | none => rw [e] at h1; simp only at h1; rw [h1] at h; cases h
  | some p =>
    obtain ⟨t1, r1⟩ := p
    rw [e] at h1; simp only at h1
    rw [h1] at h
    injection h with h2 _
    subst h2
    exact scan_s_subset s t1 r1 e

/-- The method token holds no NUL byte. -/
theorem method_no_nul (line : List Char) (m : CStr) (ts : List CStr)
    (h : tokens (cstring line) = m :: ts) : ∀ c ∈ m, c ≠ '\x00' := by
  intro c hc
  have h1 : c ∈ cstring line := head_token_subset _ m ts h c hc
  have h2 := List.mem_takeWhile_imp h1
  simpa using h2

/-! ## `tolower` and `strcasecmp` -/

theorem toNat_ofNat_small (n : Nat) (h : n < 55296) : (Char.ofNat n).toNat = n := by
  have hv : n.isValidChar := Or.inl h
  simp [Char.ofNat, hv, Char.toNat, Char.ofNatAux]
  rfl

theorem char_eq_iff (a b : Char) : a = b ↔ a.toNat = b.toNat := by
  constructor
  · intro h; rw [h]
  · intro h
    rw [← Char.ofNat_toNat a, ← Char.ofNat_toNat b, h]

theorem char_of_toNat (a : Char) (k : Nat) (h : a.toNat = k) : a = Char.ofNat k := by
  rw [← h, Char.ofNat_toNat]

theorem tolower_toNat (a : Char) :
    (tolower a).toNat = if 65 ≤ a.toNat ∧ a.toNat ≤ 90 then a.toNat + 32 else a.toNat := by
  unfold tolower
  split
  · rename_i h
    exact toNat_ofNat_small _ (by omega)
  · rfl

theorem tolower_eq_lower (a : Char) (k : Nat) (hk : 97 ≤ k ∧ k ≤ 122) :
    (tolower a).toNat = k ↔ a.toNat = k ∨ a.toNat = k - 32 := by
  rw [tolower_toNat]
  split <;> omega

theorem strcasecmp_cons_cons (a b : Char) (as bs : CStr) :
    strcasecmp (a :: as) (b :: bs) = 0 ↔
      (tolower a).toNat = (tolower b).toNat ∧ strcasecmp as bs = 0 := by
  rw [strcasecmp]
  split
  · rename_i h
    simp [h]
  · rename_i h
    have h1 : (tolower a).toNat ≠ (tolower b).toNat := fun e => h ((char_eq_iff _ _).2 e)
    constructor
    · intro e; omega
    · intro e; exact absurd e.1 h1

theorem strcasecmp_cons_nil (a : Char) (as : CStr) :
    strcasecmp (a :: as) [] = 0 ↔ (tolower a).toNat = 0 := by
  rw [strcasecmp]; omega

theorem strcasecmp_nil_cons (b : Char) (bs : CStr) :
    strcasecmp [] (b :: bs) = 0 ↔ (tolower b).toNat = 0 := by
  rw [strcasecmp]; omega

theorem strcasecmp_GET_of_mem (m : CStr) (h : m ∈ GET_spellings) :
    strcasecmp m "GET".toList = 0 := by
  simp only [GET_spellings, List.mem_cons, List.mem_singleton, List.not_mem_nil, or_false] at h
  rcases h with h | h | h | h | h | h | h | h <;> subst h <;> decide

/-- On a string without NUL bytes, `strcasecmp` with `"GET"` gives 0 exactly
for the eight spellings of `GET`. -/
theorem strcasecmp_GET_iff (m : CStr) (h0 : ∀ c ∈ m, c ≠ '\x00') :
    strcasecmp m "GET".toList = 0 ↔ m ∈ GET_spellings := by
  constructor
  · intro h
    have hG : (tolower 'G').toNat = 103 := by decide
    have hE : (tolower 'E').toNat = 101 := by decide
    have hT : (tolower 'T').toNat = 116 := by decide
    have hs : "GET".toList = ['G', 'E', 'T'] := rfl
    rw [hs] at h
    match m, h0, h with
    | [], _, h => rw [strcasecmp_nil_cons, hG] at h; omega
    | [a], _, h =>
      rw [strcasecmp_cons_cons, strcasecmp_nil_cons, hE] at h; omega
    | [a, b], _, h =>
      rw [strcasecmp_cons_cons, strcasecmp_cons_cons, strcasecmp_nil_cons, hT] at h; omega
    | [a, b, c], _, h =>
      rw [strcasecmp_cons_cons, strcasecmp_cons_cons, strcasecmp_cons_cons, hG, hE, hT,
        tolower_eq_lower a 103 (by omega), tolower_eq_lower b 101 (by omega),
        tolower_eq_lower c 116 (by omega)] at h
      obtain ⟨ha, hb, hc, _⟩ := h
      rcases ha with ha | ha <;> rcases hb with hb | hb <;> rcases hc with hc | hc <;>
        (rw [char_of_toNat a _ ha, char_of_toNat b _ hb, char_of_toNat c _ hc]; decide)
    | a :: b :: c :: d :: r, h0, h =>
      rw [strcasecmp_cons_cons, strcasecmp_cons_cons, strcasecmp_cons_cons,
        strcasecmp_cons_nil] at h
      have hd : d.toNat = 0 := by
        have := h.2.2.2
        rw [tolower_toNat] at this
        split at this <;> omega
      exact absurd (char_of_toNat d 0 hd) (h0 d (by simp))
  · exact strcasecmp_GET_of_mem m

/-! ## The paths of `doit` -/

theorem doit_no_token (parse_uri : CStr → Int × CStr × CStr) (stat : CStr → Option Stat)
    (line : List Char) (h : tokens (cstring line) = []) :
    doit parse_uri stat line = none := by
  simp [doit, sscanf3_tokens, h]

theorem doit_other_method (parse_uri : CStr → Int × CStr × CStr) (stat : CStr → Option Stat)
    (line : List Char) (m : CStr) (ts : List CStr)
    (h : tokens (cstring line) = m :: ts) (hm : m ∉ GET_spellings) :
    doit parse_uri stat line =
      some [Event.clienterror m "501".toList "NOT implemented".toList
        "Tiny does not implement this method".toList] := by
  have hne : strcasecmp m ['G', 'E', 'T'] ≠ 0 :=
    fun e => hm ((strcasecmp_GET_iff m (method_no_nul line m ts h)).1 e)
  simp [doit, sscanf3_tokens, h, hne]

theorem doit_GET_alone (parse_uri : CStr → Int × CStr × CStr) (stat : CStr → Option Stat)
    (line : List Char) (m : CStr)
    (h : tokens (cstring line) = [m]) (hm : m ∈ GET_spellings) :
    doit parse_uri stat line = none := by
  have he : strcasecmp m ['G', 'E', 'T'] = 0 := strcasecmp_GET_of_mem m hm
  simp [doit, sscanf3_tokens, h, he]

/-- The dispatch of a `GET` request line with a URI token, as a function of
the classification and of the result of `stat`. -/
theorem doit_GET (parse_uri : CStr → Int × CStr × CStr) (stat : CStr → Option Stat)
    (line : List Char) (m uri : CStr) (ts : List CStr) (is_static : Int)
    (filename cgiargs : CStr)
    (h : tokens (cstring line) = m :: uri :: ts) (hm : m ∈ GET_spellings)
    (hp : parse_uri uri = (is_static, filename, cgiargs)) :
    doit parse_uri stat line =
      match stat filename with
      | none =>
        some [Event.read_requesthdrs, Event.parse_uri uri, Event.stat filename,
          Event.clienterror filename "404".toList "Not found".toList
            "Tiny couldn't find this file".toList]
      | some sbuf =>
        if is_static ≠ 0 then
          if S_ISREG sbuf.st_mode = false ∨ S_IRUSR &&& sbuf.st_mode = 0 then
            some [Event.read_requesthdrs, Event.parse_uri uri, Event.stat filename,
              Event.clienterror filename "403".toList "Forbidden".toList
                "Tiny couldn't read the file".toList]
          else
            some [Event.read_requesthdrs, Event.parse_uri uri, Event.stat filename,
              Event.serve_static filename (toInt32 sbuf.st_size)]
        else
          if S_ISREG sbuf.st_mode = false ∨ S_IXUSR &&& sbuf.st_mode = 0 then
            some [Event.read_requesthdrs, Event.parse_uri uri, Event.stat filename,
              Event.clienterror filename "403".toList "Forbidden".toList
                "Tiny couldn\xe2\x80\x99t run the CGI program".toList]
          else
            some [Event.read_requesthdrs, Event.parse_uri uri, Event.stat filename,
              Event.serve_dynamic filename cgiargs] := by
  have he : strcasecmp m ['G', 'E', 'T'] = 0 := strcasecmp_GET_of_mem m hm
  cases hst : stat filename with
  | none => simp [doit, sscanf3_tokens, h, hp, he, hst]
  | some sbuf =>
    by_cases hs : is_static = 0 <;> by_cases hr : S_ISREG sbuf.st_mode = true <;>
      by_cases h1 : S_IRUSR &&& sbuf.st_mode = 0 <;>
      by_cases h2 : S_IXUSR &&& sbuf.st_mode = 0 <;>
      simp [doit, sscanf3_tokens, h, hp, he, hst, hs, hr, h1, h2]

/-- Every trace of `doit` is one of six: the 501 response alone, or header
consumption, classification and `stat` followed by one of the 404 response,
the two 403 responses, `serve_static` and `serve_dynamic`. -/
theorem doit_trace (parse_uri : CStr → Int × CStr × CStr) (stat : CStr → Option Stat)
    (line : List Char) (t : List Event) (ht : doit parse_uri stat line = some t) :
    ∃ r, (∃ cause, r = Event.clienterror cause "501".toList "NOT implemented".toList
            "Tiny does not implement this method".toList ∧ t = [r]) ∨
      (∃ uri filename,
        t = [Event.read_requesthdrs, Event.parse_uri uri, Event.stat filename, r] ∧
        (r = Event.clienterror filename "404".toList "Not found".toList
            "Tiny couldn't find this file".toList ∨
         r = Event.clienterror filename "403".toList "Forbidden".toList
            "Tiny couldn't read the file".toList ∨
         r = Event.clienterror filename "403".toList "Forbidden".toList
            "Tiny couldn\xe2\x80\x99t run the CGI program".toList ∨
         (∃ n, r = Event.serve_static filename n) ∨
         (∃ cgiargs, r = Event.serve_dynamic filename cgiargs))) := by
  cases htok : tokens (cstring line) with
  | nil => rw [doit_no_token parse_uri stat line htok] at ht; cases ht
  | cons m ts =>
    by_cases hm : m ∈ GET_spellings
    · cases ts with
      | nil => rw [doit_GET_alone parse_uri stat line m htok hm] at ht; cases ht
      | cons uri ts =>
        rcases hp : parse_uri uri with ⟨is_static, filename, cgiargs⟩
        rw [doit_GET parse_uri stat line m uri ts is_static filename cgiargs htok hm hp] at ht
        cases hst : stat filename with
        | none =>
          rw [hst] at ht
          simp only [Option.some.injEq] at ht
          exact ⟨_, Or.inr ⟨uri, filename, ht.symm, Or.inl rfl⟩⟩
        | some sbuf =>
          rw [hst] at ht
          simp only at ht
          split at ht <;> split at ht <;> simp only [Option.some.injEq] at ht
          · exact ⟨_, Or.inr ⟨uri, filename, ht.symm, Or.inr (Or.inl rfl)⟩⟩
          · exact ⟨_, Or.inr ⟨uri, filename, ht.symm,
              Or.inr (Or.inr (Or.inr (Or.inl ⟨_, rfl⟩)))⟩⟩
          · exact ⟨_, Or.inr ⟨uri, filename, ht.symm, Or.inr (Or.inr (Or.inl rfl))⟩⟩
          · exact ⟨_, Or.inr ⟨uri, filename, ht.symm,
              Or.inr (Or.inr (Or.inr (Or.inr ⟨_, rfl⟩)))⟩⟩
    · rw [doit_other_method parse_uri stat line m ts htok hm] at ht
      simp only [Option.some.injEq] at ht
      exact ⟨_, Or.inl ⟨m, rfl, ht.symm⟩⟩

/-- The methods the specification names, evaluated: `HEAD` and `post` get the
501 response, `get` and `Get` are dispatched like `GET`. -/
theorem doit_method_examples :
    doit staticUnderDot (statAll 0o100644 120) "HEAD /home.html HTTP/1.0\r\n".toList =
      some [Event.clienterror "HEAD".toList "501".toList "NOT implemented".toList
        "Tiny does not implement this method".toList] ∧
    doit staticUnderDot (statAll 0o100644 120) "post /home.html HTTP/1.0\r\n".toList =
      some [Event.clienterror "post".toList "501".toList "NOT implemented".toList
        "Tiny does not implement this method".toList] ∧
    doit staticUnderDot (statAll 0o100644 120) "get /home.html HTTP/1.0\r\n".toList =
      some [Event.read_requesthdrs, Event.parse_uri "/home.html".toList,
        Event.stat "./home.html".toList, Event.serve_static "./home.html".toList 120] ∧
    doit staticUnderDot (statAll 0o100644 120) "Get /home.html HTTP/1.0\r\n".toList =
      some [Event.read_requesthdrs, Event.parse_uri "/home.html".toList,
        Event.stat "./home.html".toList, Event.serve_static "./home.html".toList 120] := by
  decide

/-! ## The writes of `clienterror` -/

theorem format_body (cause errnum shortmsg longmsg : CStr) :
    format bodyFormat [Arg.str errnum, Arg.str shortmsg, Arg.str longmsg, Arg.str cause] =
      errorText cause errnum shortmsg longmsg := by
  simp [bodyFormat, errorText, signature, format]

theorem format_status (errnum shortmsg : CStr) :
    format "HTTP/1.0 %s %s\r\n".toList [Arg.str errnum, Arg.str shortmsg] =
      "HTTP/1.0 ".toList ++ errnum ++ " ".toList ++ shortmsg ++ "\r\n".toList := by
  simp [format]

theorem format_ctype :
    format "Content-type: text/html\r\n".toList [] = "Content-type: text/html\r\n".toList := by
  simp [format]

theorem format_clen (i : Int) :
    format "Content-length: %d\r\n\r\n".toList [Arg.int i] =
      "Content-length: ".toList ++ fmt_d i ++ "\r\n\r\n".toList := by
  simp [format]

/-- The body is the error page cut to the room `snprintf` has. -/
theorem errorBody_eq (MAXBUF : Nat) (cause errnum shortmsg longmsg : CStr) :
    errorBody MAXBUF cause errnum shortmsg longmsg =
      (errorText cause errnum shortmsg longmsg).take (MAXBUF - 1) := by
  rw [errorBody, snprintf, format_body]

theorem errorText_length (cause errnum shortmsg longmsg : CStr) :
    (errorText cause errnum shortmsg longmsg).length =
      errnum.length + shortmsg.length + longmsg.length + cause.length + 100 := by
  simp [errorText, signature]
  omega

theorem errorBody_length_le (MAXBUF : Nat) (cause errnum shortmsg longmsg : CStr) :
    (errorBody MAXBUF cause errnum shortmsg longmsg).length ≤ MAXBUF - 1 := by
  rw [errorBody_eq, List.length_take]
  omega

/-- The four writes, with the formats expanded. -/
theorem clienterror_eq (MAXLINE MAXBUF : Nat) (cause errnum shortmsg longmsg : CStr) :
    clienterror MAXLINE MAXBUF cause errnum shortmsg longmsg =
      [("HTTP/1.0 ".toList ++ errnum ++ " ".toList ++ shortmsg ++ "\r\n".toList).take (MAXLINE - 1),
       ("Content-type: text/html\r\n".toList).take (MAXLINE - 1),
       ("Content-length: ".toList ++
          fmt_d (toInt32 (errorBody MAXBUF cause errnum shortmsg longmsg).length) ++
          "\r\n\r\n".toList).take (MAXLINE - 1),
       errorBody MAXBUF cause errnum shortmsg longmsg] := by
  simp only [clienterror, snprintf, Rio_writen, strlen, format_status, format_ctype, format_clen,
    List.take_length]

theorem toInt32_of_lt (n : Nat) (h : n < 2 ^ 31) : toInt32 (n : Int) = (n : Int) := by
  unfold toInt32
  omega

theorem fmt_d_natCast (n : Nat) : fmt_d (n : Int) = decimal n := by
  simp [fmt_d]

theorem decimal_length_le (n : Nat) (h : n < 2 ^ 31) : (decimal n).length ≤ 10 := by
  unfold decimal Nat.toDigits
  exact Nat.toDigitsCore_length 10 (by decide) (n + 1) n 10 (by omega) (by decide)

/-- When the three header lines fit their buffer and the length of the body
fits an `int`, the writes are the lines in full and the body. -/
theorem clienterror_fits (MAXLINE MAXBUF : Nat) (cause errnum shortmsg longmsg : CStr)
    (hL : 31 ≤ MAXLINE) (hB : MAXBUF ≤ 2 ^ 31)
    (hfit : errnum.length + shortmsg.length + 12 < MAXLINE) :
    clienterror MAXLINE MAXBUF cause errnum shortmsg longmsg =
      ["HTTP/1.0 ".toList ++ errnum ++ " ".toList ++ shortmsg ++ "\r\n".toList,
       "Content-type: text/html\r\n".toList,
       "Content-length: ".toList ++
          decimal (errorBody MAXBUF cause errnum shortmsg longmsg).length ++ "\r\n\r\n".toList,
       errorBody MAXBUF cause errnum shortmsg longmsg] := by
  have hlen := errorBody_length_le MAXBUF cause errnum shortmsg longmsg
  have hlt : (errorBody MAXBUF cause errnum shortmsg longmsg).length < 2 ^ 31 := by omega
  have hd := decimal_length_le _ hlt
  rw [clienterror_eq, toInt32_of_lt _ hlt, fmt_d_natCast]
  congr 1
  · apply List.take_of_length_le
    simp
    omega
  congr 1
  · apply List.take_of_length_le
    simp
    omega
  congr 1
  apply List.take_of_length_le
  simp
  omega

/-! ## Method check -/

/-- C1: for a request line whose first token is `m`, `doit` sends a 501
response exactly when `m` is none of the spellings of `GET`; and a trace that
holds a 501 response is that single call of `clienterror`, with cause `m`: no
header is consumed, no URI classified, no `stat` made, nothing served. -/
theorem C1_method_check (parse_uri : CStr → Int × CStr × CStr) (stat : CStr → Option Stat)
    (line : List Char) (m : CStr) (ts : List CStr)
    (h : tokens (cstring line) = m :: ts) :
    ((∃ t, doit parse_uri stat line = some t ∧ sendsError "501".toList t = true) ↔
        m ∉ GET_spellings) ∧
    (∀ t, doit parse_uri stat line = some t → sendsError "501".toList t = true →
        t = [Event.clienterror m "501".toList "NOT implemented".toList
          "Tiny does not implement this method".toList]) := by
  by_cases hm : m ∈ GET_spellings
  · have key : ∀ t, doit parse_uri stat line = some t → sendsError "501".toList t = false := by
      intro t ht
      cases ts with
      | nil => rw [doit_GET_alone parse_uri stat line m h hm] at ht; cases ht
      | cons uri ts =>
        rcases hp : parse_uri uri with ⟨is_static, filename, cgiargs⟩
        rw [doit_GET parse_uri stat line m uri ts is_static filename cgiargs h hm hp] at ht
        cases hst : stat filename with
        | none =>
          rw [hst] at ht
          simp only [Option.some.injEq] at ht
          subst ht
          simp [sendsError, Event.isError]
        | some sbuf =>
          rw [hst] at ht
          simp only at ht
          split at ht <;> split at ht <;> simp only [Option.some.injEq] at ht <;> subst ht <;>
            simp [sendsError, Event.isError]
    constructor
    · constructor
      · rintro ⟨t, ht, h501⟩
        rw [key t ht] at h501
        cases h501
      · intro hn
        exact absurd hm hn
    · intro t ht h501
      rw [key t ht] at h501
      cases h501
  · have hd := doit_other_method parse_uri stat line m ts h hm
    constructor
    · constructor
      · intro _
        exact hm
      · intro _
        exact ⟨_, hd, by simp [sendsError, Event.isError]⟩
    · intro t ht _
      rw [hd] at ht
      simp only [Option.some.injEq] at ht
      exact ht.symm

/-- C1 at `POST /form HTTP/1.0`. -/
theorem C1_method_check_witness :
    tokens (cstring "POST /form HTTP/1.0\r\n".toList) =
        "POST".toList :: ["/form".toList, "HTTP/1.0".toList] ∧
    (((∃ t, doit staticUnderDot statNothing "POST /form HTTP/1.0\r\n".toList = some t ∧
          sendsError "501".toList t = true) ↔ "POST".toList ∉ GET_spellings) ∧
      (∀ t, doit staticUnderDot statNothing "POST /form HTTP/1.0\r\n".toList = some t →
        sendsError "501".toList t = true →
        t = [Event.clienterror "POST".toList "501".toList "NOT implemented".toList
          "Tiny does not implement this method".toList])) :=
  ⟨by decide, C1_method_check staticUnderDot statNothing "POST /form HTTP/1.0\r\n".toList
    "POST".toList ["/form".toList, "HTTP/1.0".toList] (by decide)⟩

/-! ## Missing files -/

/-- C2: a `GET` request whose classified path `stat` does not find, static or
dynamic alike, gets the 404 response and nothing is served; the value of the
`Content-length` header of that response is the decimal length of the body
that is written after it. -/
theorem C2_not_found (MAXLINE MAXBUF : Nat) (parse_uri : CStr → Int × CStr × CStr)
    (stat : CStr → Option Stat) (line : List Char) (m uri : CStr) (ts : List CStr)
    (is_static : Int) (filename cgiargs : CStr)
    (hL : 31 ≤ MAXLINE) (hB0 : 0 < MAXBUF) (hB : MAXBUF ≤ 2 ^ 31)
    (h : tokens (cstring line) = m :: uri :: ts) (hm : m ∈ GET_spellings)
    (hp : parse_uri uri = (is_static, filename, cgiargs)) (hs : stat filename = none) :
    doit parse_uri stat line =
      some [Event.read_requesthdrs, Event.parse_uri uri, Event.stat filename,
        Event.clienterror filename "404".toList "Not found".toList
          "Tiny couldn't find this file".toList] ∧
    ∃ body, body.length < MAXBUF ∧
      clienterror MAXLINE MAXBUF filename "404".toList "Not found".toList
          "Tiny couldn't find this file".toList =
        ["HTTP/1.0 404 Not found\r\n".toList,
         "Content-type: text/html\r\n".toList,
         "Content-length: ".toList ++ decimal body.length ++ "\r\n\r\n".toList,
         body] := by
  constructor
  · rw [doit_GET parse_uri stat line m uri ts is_static filename cgiargs h hm hp, hs]
  · refine ⟨errorBody MAXBUF filename "404".toList "Not found".toList
      "Tiny couldn't find this file".toList, ?_, ?_⟩
    · have := errorBody_length_le MAXBUF filename "404".toList "Not found".toList
        "Tiny couldn't find this file".toList
      omega
    · rw [clienterror_fits MAXLINE MAXBUF filename _ _ _ hL hB (by simp; omega)]
      rfl

/-- C2 at `GET /missing.html HTTP/1.0` with no file present and both limits
at 8192. -/
theorem C2_not_found_witness :
    doit staticUnderDot statNothing "GET /missing.html HTTP/1.0\r\n".toList =
      some [Event.read_requesthdrs, Event.parse_uri "/missing.html".toList,
        Event.stat "./missing.html".toList,
        Event.clienterror "./missing.html".toList "404".toList "Not found".toList
          "Tiny couldn't find this file".toList] ∧
    ∃ body, body.length < 8192 ∧
      clienterror 8192 8192 "./missing.html".toList "404".toList "Not found".toList
          "Tiny couldn't find this file".toList =
        ["HTTP/1.0 404 Not found\r\n".toList,
         "Content-type: text/html\r\n".toList,
         "Content-length: ".toList ++ decimal body.length ++ "\r\n\r\n".toList,
         body] :=
  C2_not_found 8192 8192 staticUnderDot statNothing "GET /missing.html HTTP/1.0\r\n".toList
    "GET".toList "/missing.html".toList ["HTTP/1.0".toList] 1 "./missing.html".toList []
    (by decide) (by decide) (by decide) (by decide) (by decide) rfl rfl

/-! ## Permission checks -/

/-- C3: for a `GET` request whose classified path exists, `doit` sends a 403
response exactly when the path is not a regular file or lacks the bit of its
content kind, `S_IRUSR` for a static request and `S_IXUSR` for a dynamic one.
So a static request for a regular readable file is not refused for lacking
the execute bit, and a dynamic request for a file without it is refused. -/
theorem C3_forbidden (parse_uri : CStr → Int × CStr × CStr) (stat : CStr → Option Stat)
    (line : List Char) (m uri : CStr) (ts : List CStr) (is_static : Int)
    (filename cgiargs : CStr) (sbuf : Stat)
    (h : tokens (cstring line) = m :: uri :: ts) (hm : m ∈ GET_spellings)
    (hp : parse_uri uri = (is_static, filename, cgiargs)) (hs : stat filename = some sbuf) :
    ∃ t, doit parse_uri stat line = some t ∧
      (sendsError "403".toList t = true ↔
        (S_ISREG sbuf.st_mode = false ∨
          (is_static ≠ 0 ∧ S_IRUSR &&& sbuf.st_mode = 0) ∨
          (is_static = 0 ∧ S_IXUSR &&& sbuf.st_mode = 0))) ∧
      (is_static ≠ 0 → S_ISREG sbuf.st_mode = true → S_IRUSR &&& sbuf.st_mode ≠ 0 →
        S_IXUSR &&& sbuf.st_mode = 0 → sendsError "403".toList t = false) ∧
      (is_static = 0 → S_IRUSR &&& sbuf.st_mode ≠ 0 → S_IXUSR &&& sbuf.st_mode = 0 →
        sendsError "403".toList t = true) := by
  rw [doit_GET parse_uri stat line m uri ts is_static filename cgiargs h hm hp, hs]
  by_cases h0 : is_static = 0 <;> by_cases hr : S_ISREG sbuf.st_mode = true <;>
    by_cases h1 : S_IRUSR &&& sbuf.st_mode = 0 <;>
    by_cases h2 : S_IXUSR &&& sbuf.st_mode = 0 <;>
    simp [h0, hr, h1, h2, sendsError, Event.isError]

/-- C3 at a dynamic request for a regular file of mode 0644. -/
theorem C3_forbidden_witness :
    ∃ t, doit dynamicUnderDot (statAll 0o100644 120)
        "GET /cgi-bin/adder?2&3 HTTP/1.0\r\n".toList = some t ∧
      (sendsError "403".toList t = true ↔
        (S_ISREG 0o100644 = false ∨
          ((0 : Int) ≠ 0 ∧ S_IRUSR &&& 0o100644 = 0) ∨
          ((0 : Int) = 0 ∧ S_IXUSR &&& 0o100644 = 0))) ∧
      ((0 : Int) ≠ 0 → S_ISREG 0o100644 = true → S_IRUSR &&& 0o100644 ≠ 0 →
        S_IXUSR &&& 0o100644 = 0 → sendsError "403".toList t = false) ∧
      ((0 : Int) = 0 → S_IRUSR &&& 0o100644 ≠ 0 → S_IXUSR &&& 0o100644 = 0 →
        sendsError "403".toList t = true) :=
  C3_forbidden dynamicUnderDot (statAll 0o100644 120) "GET /cgi-bin/adder?2&3 HTTP/1.0\r\n".toList
    "GET".toList "/cgi-bin/adder?2&3".toList ["HTTP/1.0".toList] 0 "./cgi-bin/adder".toList
    "2&3".toList ⟨0o100644, 120⟩ (by decide) (by decide) (by decide) rfl

/-! ## Serving -/

/-- C10: for a `GET` request whose classified path is an existing regular
file, a static classification with the owner-read bit leads to `serve_static`
on the filename `parse_uri` produced, and a dynamic classification with the
owner-execute bit leads to `serve_dynamic` on the filename and the argument
string `parse_uri` produced; in both cases no error response is sent. -/
theorem C10_serving (parse_uri : CStr → Int × CStr × CStr) (stat : CStr → Option Stat)
    (line : List Char) (m uri : CStr) (ts : List CStr) (is_static : Int)
    (filename cgiargs : CStr) (sbuf : Stat)
    (h : tokens (cstring line) = m :: uri :: ts) (hm : m ∈ GET_spellings)
    (hp : parse_uri uri = (is_static, filename, cgiargs)) (hs : stat filename = some sbuf)
    (hreg : S_ISREG sbuf.st_mode = true) :
    (is_static ≠ 0 → S_IRUSR &&& sbuf.st_mode ≠ 0 →
      doit parse_uri stat line =
        some [Event.read_requesthdrs, Event.parse_uri uri, Event.stat filename,
          Event.serve_static filename (toInt32 sbuf.st_size)]) ∧
    (is_static = 0 → S_IXUSR &&& sbuf.st_mode ≠ 0 →
      doit parse_uri stat line =
        some [Event.read_requesthdrs, Event.parse_uri uri, Event.stat filename,
          Event.serve_dynamic filename cgiargs]) := by
  rw [doit_GET parse_uri stat line m uri ts is_static filename cgiargs h hm hp, hs]
  constructor
  · intro h0 h1
    simp [h0, hreg, h1]
  · intro h0 h1
    simp [h0, hreg, h1]

/-- C10 at `GET /cgi-bin/adder?2&3 HTTP/1.0` with `adder` of mode 0755. -/
theorem C10_serving_witness :
    doit dynamicUnderDot (statAll 0o100755 16384) "GET /cgi-bin/adder?2&3 HTTP/1.0\r\n".toList =
      some [Event.read_requesthdrs, Event.parse_uri "/cgi-bin/adder?2&3".toList,
        Event.stat "./cgi-bin/adder".toList,
        Event.serve_dynamic "./cgi-bin/adder".toList "2&3".toList] :=
  (C10_serving dynamicUnderDot (statAll 0o100755 16384)
    "GET /cgi-bin/adder?2&3 HTTP/1.0\r\n".toList
    "GET".toList "/cgi-bin/adder?2&3".toList ["HTTP/1.0".toList] 0 "./cgi-bin/adder".toList
    "2&3".toList ⟨0o100755, 16384⟩ (by decide) (by decide) (by decide) rfl (by decide)).2
    rfl (by decide)

/-! ## One response a request -/

/-- C9: on a request line with a method token, and a URI token when the
method is `GET`, `doit` ends after exactly one response: its trace is a run of
calls that produce no response followed by one call that does, and that call
is the 501, the 404 or a 403 error response, `serve_static` or
`serve_dynamic`. -/
theorem C9_one_response (parse_uri : CStr → Int × CStr × CStr) (stat : CStr → Option Stat)
    (line : List Char) (m : CStr) (ts : List CStr)
    (h : tokens (cstring line) = m :: ts) (huri : m ∈ GET_spellings → ts ≠ []) :
    ∃ calls r, doit parse_uri stat line = some (calls ++ [r]) ∧
      responses (calls ++ [r]) = 1 ∧
      (∀ e ∈ calls, Event.isResponse e = false) ∧
      (Event.isError "501".toList r = true ∨ Event.isError "404".toList r = true ∨
        Event.isError "403".toList r = true ∨
        (∃ filename filesize, r = Event.serve_static filename filesize) ∨
        (∃ filename cgiargs, r = Event.serve_dynamic filename cgiargs)) := by
  have hdef : ∃ t, doit parse_uri stat line = some t := by
    by_cases hm : m ∈ GET_spellings
    · cases ts with
      | nil => exact absurd rfl (huri hm)
      | cons uri ts =>
        rcases hp : parse_uri uri with ⟨is_static, filename, cgiargs⟩
        rw [doit_GET parse_uri stat line m uri ts is_static filename cgiargs h hm hp]
        cases stat filename with
        | none => exact ⟨_, rfl⟩
        | some sbuf =>
          simp only
          split <;> split <;> exact ⟨_, rfl⟩
    · exact ⟨_, doit_other_method parse_uri stat line m ts h hm⟩
  obtain ⟨t, ht⟩ := hdef
  obtain ⟨r, hr⟩ := doit_trace parse_uri stat line t ht
  rcases hr with ⟨cause, hr, htr⟩ | ⟨uri, filename, htr, hr⟩
  · refine ⟨[], r, by rw [ht, htr]; rfl, ?_, by simp, ?_⟩
    · subst hr; simp [responses, Event.isResponse]
    · subst hr; simp [Event.isError]
  · refine ⟨[Event.read_requesthdrs, Event.parse_uri uri, Event.stat filename], r,
      by rw [ht, htr]; rfl, ?_, by simp [Event.isResponse], ?_⟩
    · rcases hr with hr | hr | hr | ⟨n, hr⟩ | ⟨a, hr⟩ <;> subst hr <;>
        simp [responses, Event.isResponse]
    · rcases hr with hr | hr | hr | ⟨n, hr⟩ | ⟨a, hr⟩ <;> subst hr <;> simp [Event.isError]

/-- C9 at `GET /home.html HTTP/1.0` with `home.html` a regular file of mode
0644. -/
theorem C9_one_response_witness :
    ∃ calls r, doit staticUnderDot (statAll 0o100644 120) "GET /home.html HTTP/1.0\r\n".toList =
        some (calls ++ [r]) ∧
      responses (calls ++ [r]) = 1 ∧
      (∀ e ∈ calls, Event.isResponse e = false) ∧
      (Event.isError "501".toList r = true ∨ Event.isError "404".toList r = true ∨
        Event.isError "403".toList r = true ∨
        (∃ filename filesize, r = Event.serve_static filename filesize) ∨
        (∃ filename cgiargs, r = Event.serve_dynamic filename cgiargs)) :=
  C9_one_response staticUnderDot (statAll 0o100644 120) "GET /home.html HTTP/1.0\r\n".toList
    "GET".toList ["/home.html".toList, "HTTP/1.0".toList] (by decide) (by decide)

/-! ## The size handed to `serve_static` -/

/-- C7, evaluated at a regular readable file of 2^31 bytes: the size handed
to `serve_static` is -2^31, not the size of the file. -/
theorem C7_filesize_two_gib :
    doit staticUnderDot (statAll 0o100644 2147483648) "GET /disk.img HTTP/1.0\r\n".toList =
      some [Event.read_requesthdrs, Event.parse_uri "/disk.img".toList,
        Event.stat "./disk.img".toList,
        Event.serve_static "./disk.img".toList (-2147483648)] := by
  decide

/-! ## Request lines that are not of three tokens -/

/-- C5 fails at a request line of four tokens: no 400 response is sent, the
dispatch goes on and the file is served. -/
theorem C5_four_tokens :
    (tokens (cstring "GET /home.html HTTP/1.0 extra\r\n".toList)).length = 4 ∧
    doit staticUnderDot (statAll 0o100644 120) "GET /home.html HTTP/1.0 extra\r\n".toList =
      some [Event.read_requesthdrs, Event.parse_uri "/home.html".toList,
        Event.stat "./home.html".toList, Event.serve_static "./home.html".toList 120] ∧
    sendsError "400".toList [Event.read_requesthdrs, Event.parse_uri "/home.html".toList,
        Event.stat "./home.html".toList, Event.serve_static "./home.html".toList 120] = false := by
  decide

/-- C5 as amended: `doit` never sends a 400 response, and what it does depends
on the first two tokens of the request line only, whatever the number of
tokens.  A first token that is not `GET` gives the 501 response; `GET` with a
second token lets the dispatch go on to header consumption, classification of
that token and `stat`, followed by one more call. -/
theorem C5_token_count (parse_uri : CStr → Int × CStr × CStr) (stat : CStr → Option Stat)
    (line : List Char) :
    (∀ t, doit parse_uri stat line = some t → sendsError "400".toList t = false) ∧
    (∀ other : List Char, (tokens (cstring other)).take 2 = (tokens (cstring line)).take 2 →
      doit parse_uri stat other = doit parse_uri stat line) ∧
    (∀ m ts, tokens (cstring line) = m :: ts → m ∉ GET_spellings →
      doit parse_uri stat line =
        some [Event.clienterror m "501".toList "NOT implemented".toList
          "Tiny does not implement this method".toList]) ∧
    (∀ m uri ts, tokens (cstring line) = m :: uri :: ts → m ∈ GET_spellings →
      ∃ filename r, doit parse_uri stat line =
        some [Event.read_requesthdrs, Event.parse_uri uri, Event.stat filename, r]) := by
  refine ⟨?_, ?_, ?_, ?_⟩
  · intro t ht
    obtain ⟨r, hr⟩ := doit_trace parse_uri stat line t ht
    rcases hr with ⟨cause, hr, htr⟩ | ⟨uri, filename, htr, hr⟩
    · subst htr; subst hr; simp [sendsError, Event.isError]
    · subst htr
      rcases hr with hr | hr | hr | ⟨n, hr⟩ | ⟨a, hr⟩ <;> subst hr <;>
        simp [sendsError, Event.isError]
  · intro other ho
    cases htok : tokens (cstring line) with
    | nil =>
      rw [htok] at ho
      have h1 : tokens (cstring other) = [] := by
        cases hto : tokens (cstring other) with
        | nil => rfl
        | cons a as => rw [hto] at ho; cases as <;> simp at ho
      rw [doit_no_token parse_uri stat line htok, doit_no_token parse_uri stat other h1]
    | cons m ts =>
      cases ts with
      | nil =>
        rw [htok] at ho
        have h1 : tokens (cstring other) = [m] := by
          cases hto : tokens (cstring other) with
          | nil => rw [hto] at ho; simp at ho
          | cons a as =>
            rw [hto] at ho
            cases as with
            | nil => simpa using ho
            | cons b bs => simp at ho
        by_cases hm : m ∈ GET_spellings
        · rw [doit_GET_alone parse_uri stat line m htok hm,
            doit_GET_alone parse_uri stat other m h1 hm]
        · rw [doit_other_method parse_uri stat line m [] htok hm,
            doit_other_method parse_uri stat other m [] h1 hm]
      | cons uri ts =>
        rw [htok] at ho
        have h1 : ∃ us, tokens (cstring other) = m :: uri :: us := by
          cases hto : tokens (cstring other) with
          | nil => rw [hto] at ho; simp at ho
          | cons a as =>
            rw [hto] at ho
            cases as with
            | nil => simp at ho
            | cons b bs =>
              simp at ho
              exact ⟨bs, by rw [ho.1, ho.2]⟩
        obtain ⟨us, h1⟩ := h1
        by_cases hm : m ∈ GET_spellings
        · rcases hp : parse_uri uri with ⟨is_static, filename, cgiargs⟩
          rw [doit_GET parse_uri stat line m uri ts is_static filename cgiargs htok hm hp,
            doit_GET parse_uri stat other m uri us is_static filename cgiargs h1 hm hp]
        · rw [doit_other_method parse_uri stat line m _ htok hm,
            doit_other_method parse_uri stat other m _ h1 hm]
  · intro m ts htok hm
    exact doit_other_method parse_uri stat line m ts htok hm
  · intro m uri ts htok hm
    rcases hp : parse_uri uri with ⟨is_static, filename, cgiargs⟩
    rw [doit_GET parse_uri stat line m uri ts is_static filename cgiargs htok hm hp]
    cases stat filename with
    | none => exact ⟨_, _, rfl⟩
    | some sbuf =>
      simp only
      split <;> split <;> exact ⟨_, _, rfl⟩

/-! ## The error body -/

theorem longCause_length : longCause.length = 8191 := List.length_replicate _ _

theorem longPhrase_length : longPhrase.length = 8192 := List.length_replicate _ _

theorem longCause_getElem? (i : Nat) (h : i < 8191) : longCause[i]? = some 'a' := by
  unfold longCause
  rw [List.getElem?_replicate, if_pos h]

theorem errorBody_longCause_length :
    (errorBody 8192 longCause "501".toList "NOT implemented".toList
      "Tiny does not implement this method".toList).length = 8191 := by
  rw [errorBody_eq, List.length_take, errorText_length, longCause_length]
  simp

theorem clienterror_getLast? (MAXLINE MAXBUF : Nat) (cause errnum shortmsg longmsg : CStr) :
    (clienterror MAXLINE MAXBUF cause errnum shortmsg longmsg).getLast? =
      some (errorBody MAXBUF cause errnum shortmsg longmsg) := by
  rw [clienterror_eq]
  rfl

/-- C8: the error body that `clienterror` writes fits the `MAXBUF` bytes of
its buffer together with the terminator; it is the first `MAXBUF - 1` bytes of
the error page when the page is longer than that, and the whole page
otherwise. -/
theorem C8_body_bounded (MAXLINE MAXBUF : Nat) (cause errnum shortmsg longmsg : CStr)
    (hB : 0 < MAXBUF) :
    ∃ body, (clienterror MAXLINE MAXBUF cause errnum shortmsg longmsg).getLast? = some body ∧
      body = errorBody MAXBUF cause errnum shortmsg longmsg ∧
      body.length + 1 ≤ MAXBUF ∧
      (MAXBUF - 1 < (errorText cause errnum shortmsg longmsg).length →
        body = (errorText cause errnum shortmsg longmsg).take (MAXBUF - 1) ∧
        body.length = MAXBUF - 1) ∧
      ((errorText cause errnum shortmsg longmsg).length ≤ MAXBUF - 1 →
        body = errorText cause errnum shortmsg longmsg) := by
  refine ⟨_, clienterror_getLast? MAXLINE MAXBUF cause errnum shortmsg longmsg, rfl, ?_, ?_, ?_⟩
  · have := errorBody_length_le MAXBUF cause errnum shortmsg longmsg
    omega
  · intro hlong
    refine ⟨errorBody_eq MAXBUF cause errnum shortmsg longmsg, ?_⟩
    rw [errorBody_eq, List.length_take]
    omega
  · intro hshort
    rw [errorBody_eq]
    exact List.take_of_length_le hshort

/-- C8 at the 404 page of `./missing.html` with `MAXBUF = 8192`. -/
theorem C8_body_bounded_witness :
    ∃ body, (clienterror 8192 8192 "./missing.html".toList "404".toList "Not found".toList
        "Tiny couldn't find this file".toList).getLast? = some body ∧
      body = errorBody 8192 "./missing.html".toList "404".toList "Not found".toList
        "Tiny couldn't find this file".toList ∧
      body.length + 1 ≤ 8192 ∧
      (8192 - 1 < (errorText "./missing.html".toList "404".toList "Not found".toList
          "Tiny couldn't find this file".toList).length →
        body = (errorText "./missing.html".toList "404".toList "Not found".toList
          "Tiny couldn't find this file".toList).take (8192 - 1) ∧
        body.length = 8192 - 1) ∧
      ((errorText "./missing.html".toList "404".toList "Not found".toList
          "Tiny couldn't find this file".toList).length ≤ 8192 - 1 →
        body = errorText "./missing.html".toList "404".toList "Not found".toList
          "Tiny couldn't find this file".toList) :=
  C8_body_bounded 8192 8192 "./missing.html".toList "404".toList "Not found".toList
    "Tiny couldn't find this file".toList (by decide)

/-- C6 fails at a cause of 8191 bytes, the longest method token a request
line can hold when `MAXLINE` is 8192: with `MAXBUF = 8192` the body of the 501
response neither holds the cause in full nor ends with the signature line. -/
theorem C6_long_cause :
    ∃ body, (clienterror 8192 8192 longCause "501".toList "NOT implemented".toList
        "Tiny does not implement this method".toList).getLast? = some body ∧
      ¬ (longCause <:+: body) ∧ ¬ (signature <:+ body) := by
  refine ⟨_, clienterror_getLast? 8192 8192 longCause _ _ _, ?_, ?_⟩
  · intro h
    have h1 := h.eq_of_length (by rw [errorBody_longCause_length, longCause_length])
    have h2 := congrArg (fun l => l[0]?) h1
    simp only [longCause_getElem? 0 (by decide)] at h2
    rw [errorBody_eq, List.getElem?_take_of_lt (by decide)] at h2
    simp [errorText] at h2
  · intro h
    obtain ⟨t, ht⟩ := h
    have h2 := congrArg List.getLast? ht
    rw [List.getLast?_eq_getElem? (errorBody _ _ _ _ _), errorBody_longCause_length] at h2
    rw [errorBody_eq, List.getElem?_take_of_lt (by decide)] at h2
    simp [signature, errorText, List.getElem?_append, longCause_length, longCause_getElem?] at h2
    rw [List.getElem_append_left (by rw [longCause_length]; decide)] at h2
    unfold longCause at h2
    rw [List.getElem_replicate] at h2
    exact absurd h2 (by decide)

/-- C6 as amended: when the error page fits the body buffer, that is when the
status code, the two phrases and the cause have fewer than `MAXBUF - 100`
bytes together, the body written is the whole page: the fixed HTML text with
the status code, the short phrase, the long phrase and the cause in full, in
that order, closed by the signature line. -/
theorem C6_body_in_full (MAXLINE MAXBUF : Nat) (cause errnum shortmsg longmsg : CStr)
    (hfit : errnum.length + shortmsg.length + longmsg.length + cause.length + 100 < MAXBUF) :
    ∃ body, (clienterror MAXLINE MAXBUF cause errnum shortmsg longmsg).getLast? = some body ∧
      body = "<html><title>Tiny Error</title><body bgcolor=#ffffff>\r\n".toList ++ errnum ++
        ": ".toList ++ shortmsg ++ "\r\n<p>".toList ++ longmsg ++ ": ".toList ++ cause ++
        "\r\n".toList ++ "<hr><em>The Tiny Web server</em>\r\n".toList ∧
      signature <:+ body := by
  have hb : errorBody MAXBUF cause errnum shortmsg longmsg =
      errorText cause errnum shortmsg longmsg := by
    rw [errorBody_eq]
    apply List.take_of_length_le
    rw [errorText_length]
    omega
  refine ⟨_, clienterror_getLast? MAXLINE MAXBUF cause errnum shortmsg longmsg, ?_, ?_⟩
  · rw [hb]; rfl
  · rw [hb]
    exact ⟨_, rfl⟩

/-- C6 as amended, at the 404 page of `./missing.html` with `MAXBUF = 8192`. -/
theorem C6_body_in_full_witness :
    ∃ body, (clienterror 8192 8192 "./missing.html".toList "404".toList "Not found".toList
        "Tiny couldn't find this file".toList).getLast? = some body ∧
      body = "<html><title>Tiny Error</title><body bgcolor=#ffffff>\r\n".toList ++ "404".toList ++
        ": ".toList ++ "Not found".toList ++ "\r\n<p>".toList ++
        "Tiny couldn't find this file".toList ++ ": ".toList ++ "./missing.html".toList ++
        "\r\n".toList ++ "<hr><em>The Tiny Web server</em>\r\n".toList ∧
      signature <:+ body :=
  C6_body_in_full 8192 8192 "./missing.html".toList "404".toList "Not found".toList
    "Tiny couldn't find this file".toList (by decide)

/-! ## The bytes of an error response -/

/-- C4 fails at a short phrase of 8192 bytes with `MAXLINE = MAXBUF = 8192`:
the status line is cut to 8191 bytes, so the bytes written are not the status
line, the headers, the blank line and the body. -/
theorem C4_long_phrase :
    (clienterror 8192 8192 "./missing.html".toList "404".toList longPhrase
        "Tiny couldn't find this file".toList).flatten ≠
      errorResponse "404".toList longPhrase
        (errorBody 8192 "./missing.html".toList "404".toList longPhrase
          "Tiny couldn't find this file".toList) := by
  intro h
  have hlen := errorBody_length_le 8192 "./missing.html".toList "404".toList longPhrase
    "Tiny couldn't find this file".toList
  have hlt : (errorBody 8192 "./missing.html".toList "404".toList longPhrase
    "Tiny couldn't find this file".toList).length < 2 ^ 31 := by omega
  rw [clienterror_eq, toInt32_of_lt _ hlt, fmt_d_natCast] at h
  have h1 := congrArg List.length h
  simp only [errorResponse, List.flatten, List.length_append, List.length_take, longPhrase_length,
    List.length_nil] at h1
  have e1 : "HTTP/1.0 ".toList.length = 9 := by decide
  have e2 : "404".toList.length = 3 := by decide
  have e3 : " ".toList.length = 1 := by decide
  have e4 : "\r\n".toList.length = 2 := by decide
  have e5 : "Content-type: text/html\r\n".toList.length = 25 := by decide
  have e6 : "Content-length: ".toList.length = 16 := by decide
  have e7 : "\r\n\r\n".toList.length = 4 := by decide
  rw [e1, e2, e3, e4, e5, e6, e7] at h1
  omega

/-- C4 as amended: when the status line fits its buffer, that is when the
status code and the short phrase have fewer than `MAXLINE - 12` bytes
together (with `MAXLINE` at least 31 and `MAXBUF` between 1 and 2^31), the
bytes `clienterror` writes are the status line, the `Content-type` header, the
`Content-length` header, a blank line and the body, where the body is the
error page cut to `MAXBUF - 1` bytes and the header value is the decimal
length of that body. -/
theorem C4_response_bytes (MAXLINE MAXBUF : Nat) (cause errnum shortmsg longmsg : CStr)
    (hL : 31 ≤ MAXLINE) (hB0 : 0 < MAXBUF) (hB : MAXBUF ≤ 2 ^ 31)
    (hfit : errnum.length + shortmsg.length + 12 < MAXLINE) :
    ∃ body, body = (errorText cause errnum shortmsg longmsg).take (MAXBUF - 1) ∧
      body.length < MAXBUF ∧
      (clienterror MAXLINE MAXBUF cause errnum shortmsg longmsg).flatten =
        "HTTP/1.0 ".toList ++ errnum ++ " ".toList ++ shortmsg ++ "\r\n".toList ++
        "Content-type: text/html\r\n".toList ++
        "Content-length: ".toList ++ decimal body.length ++ "\r\n".toList ++
        "\r\n".toList ++ body := by
  refine ⟨errorBody MAXBUF cause errnum shortmsg longmsg, errorBody_eq _ _ _ _ _, ?_, ?_⟩
  · have := errorBody_length_le MAXBUF cause errnum shortmsg longmsg
    omega
  · rw [clienterror_fits MAXLINE MAXBUF cause errnum shortmsg longmsg hL hB hfit]
    simp [List.flatten]

/-- C4 as amended, at the 403 response for `./secret.txt` with both limits at
8192. -/
theorem C4_response_bytes_witness :
    ∃ body, body = (errorText "./secret.txt".toList "403".toList "Forbidden".toList
        "Tiny couldn't read the file".toList).take (8192 - 1) ∧
      body.length < 8192 ∧
      (clienterror 8192 8192 "./secret.txt".toList "403".toList "Forbidden".toList
          "Tiny couldn't read the file".toList).flatten =
        "HTTP/1.0 ".toList ++ "403".toList ++ " ".toList ++ "Forbidden".toList ++ "\r\n".toList ++
        "Content-type: text/html\r\n".toList ++
        "Content-length: ".toList ++ decimal body.length ++ "\r\n".toList ++
        "\r\n".toList ++ body :=
  C4_response_bytes 8192 8192 "./secret.txt".toList "403".toList "Forbidden".toList
    "Tiny couldn't read the file".toList (by decide) (by decide) (by decide) (by decide)

end Tiny
